import Mathlib

/-!
# Verification of the authentication/authorization core

A shallow embedding, in Lean 4, of the authentication and authorization core
of a multi-tenant web backend: the drizzle-orm data model (`users`, `roles`,
`permissions`, `userRoles`, `rolePermissions`), the JWT token issuer/verifier
(`issueTokens`, `safeJwtVerify`), the request authenticator middleware
(`protect`), the login/refresh endpoints of the auth web controller
(`loginUser`, `refreshToken`, `handleAzureLogin`), and the periodically
refreshed in-memory permission cache (`RoleBaseAccess`).

Database tables are embedded as lists of rows; SQL inner joins are embedded
as filtered cartesian products; `limit 1` is `List.head?`.  JWTs are embedded
symbolically: a signed token is a record of its claims, the signing secret
and its issue/expiry times, and verification succeeds exactly when the
secret matches and the token is unexpired — the standard symbolic model of a
signature scheme.  JavaScript string falsiness (empty string and
`null`/`undefined` both falsy) is modelled where the control flow depends on
it.
-/

namespace WhatsappPoc

/-! ## Data model (drizzle schema) -/

/-- Row of the `users` table (fields the auth core reads).
`isActive` has `default(true)` and is nullable in the schema; the auth flow
only ever tests its truthiness, so it is embedded as a `Bool`.
`passwordHash` is nullable (`text()` with no `notNull`). -/
structure UserRow where
  id : String
  name : String
  email : String
  isActive : Bool
  passwordHash : Option String
deriving DecidableEq, Repr

/-- Row of the `roles` table: integer identity id, unique enum name,
`isActive` with default true. -/
structure RoleRow where
  id : Nat
  name : String
  isActive : Bool
deriving DecidableEq, Repr

/-- Row of the `permissions` table: integer identity id and unique code. -/
structure PermissionRow where
  id : Nat
  code : String
deriving DecidableEq, Repr

/-- Row of the `user_roles` table: composite primary key `(userId, roleId)`,
`isDefault` boolean with default false.  Note the schema has no uniqueness
constraint on `(userId, isDefault=true)`: several rows of one user may carry
`isDefault = true`. -/
structure UserRoleRow where
  userId : String
  roleId : Nat
  isDefault : Bool
deriving DecidableEq, Repr

/-- Row of the `role_permissions` table: composite primary key
`(permissionId, roleId)`. -/
structure RolePermissionRow where
  roleId : Nat
  permissionId : Nat
deriving DecidableEq, Repr

/-- The database state visible to the auth core. -/
structure Database where
  users : List UserRow
  roles : List RoleRow
  permissions : List PermissionRow
  userRoles : List UserRoleRow
  rolePermissions : List RolePermissionRow
deriving DecidableEq, Repr

/-- `AppError(message, statusCode)` from `abstractions/AppError`. -/
structure AppError where
  message : String
  status : Nat
deriving DecidableEq, Repr

/-- JavaScript `toLocaleLowerCase()` in the default locale: lower-case every
character. -/
def jsToLower (s : String) : String := ⟨s.data.map Char.toLower⟩

/-! ## JWT model (`jsonwebtoken` sign/verify, symbolic) -/

/-- Claim payloads signed into tokens.  The access token carries
`{userId, name, email, roleId}`; the refresh token carries `{userId}` only. -/
inductive JwtClaims where
  | access (userId name email : String) (roleId : Nat)
  | refresh (userId : String)
deriving DecidableEq, Repr

/-- `decoded.userId`: both claim shapes expose `userId`. -/
def JwtClaims.userId : JwtClaims → String
  | .access u _ _ _ => u
  | .refresh u => u

/-- A signed token: claims, signing secret, issue time (seconds) and
lifetime (seconds).  `jwt.sign(payload, secret, { expiresIn })`. -/
structure SignedToken where
  claims : JwtClaims
  secret : String
  iat : Nat
  expSec : Nat
deriving DecidableEq, Repr

/-- `jwt.sign(claims, secret, { expiresIn })` at clock time `now`. -/
def jwtSign (claims : JwtClaims) (secret : String) (expiresIn : Nat)
    (now : Nat) : SignedToken :=
  ⟨claims, secret, now, expiresIn⟩

/-- `jwt.verify(token, secret)` at clock time `now`: succeeds exactly when
the token was signed with `secret` and `now` is before `iat + expiresIn`
(the `exp` claim); on a wrong secret or an expired token it throws, embedded
as `Except.error ()`. -/
def jwtVerify (t : SignedToken) (secret : String) (now : Nat) :
    Except Unit JwtClaims :=
  if t.secret = secret ∧ now < t.iat + t.expSec then .ok t.claims
  else .error ()

/-- The environment configuration consumed by the core (`env.ts`). -/
structure Env where
  JWT_SECRET : String
  JWT_REFRESH_SECRET : String
  NODE_ENV : String
  COOKIE_DOMAIN : String
deriving DecidableEq, Repr

/-- `safeJwtVerify` from `utils/validations.ts`: `jwt.verify` with
`env.JWT_SECRET`, any thrown error turned into a failure result. -/
def safeJwtVerify (env : Env) (token : SignedToken) (now : Nat) :
    Except Unit JwtClaims :=
  jwtVerify token env.JWT_SECRET now

/-- `issueTokens(user, roleId)` from `authUtils`: access token signed with
`JWT_SECRET`, `expiresIn: '30m'`; refresh token signed with
`JWT_REFRESH_SECRET`, `expiresIn: '7d'`. -/
def issueTokens (env : Env) (user : UserRow) (roleId : Nat) (now : Nat) :
    SignedToken × SignedToken :=
  (jwtSign (.access user.id user.name user.email roleId) env.JWT_SECRET
      (30 * 60) now,
   jwtSign (.refresh user.id) env.JWT_REFRESH_SECRET (7 * 24 * 60 * 60) now)

/-! ## Request authenticator (`middleware/protect.ts`) -/

/-- The per-request token carriers read by `protect`:
`req.cookies['accessToken']` and the `Authorization: Bearer <token>` header.
Tokens being symbolic, each carrier holds `Option SignedToken`, where `none`
covers an absent cookie/header and a JS-falsy (empty) value — both take the
same branch in the source. -/
structure ProtectRequest where
  cookieAccessToken : Option SignedToken
  bearerToken : Option SignedToken
deriving DecidableEq, Repr

/-- Token extraction of `protect`: prefer the `accessToken` cookie, else the
bearer token from the `Authorization` header. -/
def extractedToken (req : ProtectRequest) : Option SignedToken :=
  match req.cookieAccessToken with
  | some t => some t
  | none => req.bearerToken

/-- The identity/permission object `protect` attaches as
`req.user_details`. -/
structure UserDetailsType where
  id : String
  name : String
  email : String
  roleId : Nat
  roleName : String
  permissions : List String
deriving DecidableEq, Repr

/-- The user-with-default-role row selected by `protect` before the
permissions are attached. -/
structure UserDetailsBase where
  id : String
  name : String
  email : String
  roleId : Nat
  roleName : String
deriving DecidableEq, Repr

/-- The query of `protect`:
`select(users.id, users.name, users.email, roles.id, roles.name)
 from users innerJoin userRoles on userRoles.userId = users.id
 innerJoin roles on roles.id = userRoles.roleId
 where users.id = uid and userRoles.isDefault = true limit 1`.
Inner joins are embedded as a filtered cartesian product; `limit 1` is
`head?`. -/
def protectUserQuery (db : Database) (uid : String) :
    Option UserDetailsBase :=
  (((db.users.product db.userRoles).product db.roles).filterMap fun x =>
    if x.1.2.userId = x.1.1.id ∧ x.2.id = x.1.2.roleId ∧ x.1.1.id = uid ∧
        x.1.2.isDefault = true then
      some ⟨x.1.1.id, x.1.1.name, x.1.1.email, x.2.id, x.2.name⟩
    else none).head?

/-- `select(userRoles.roleId) from userRoles where userRoles.userId = uid`:
every role id the user holds (default or not). -/
def allUserRoleIds (db : Database) (uid : String) : List Nat :=
  (db.userRoles.filter fun ur => ur.userId = uid).map (·.roleId)

/-- `select(permissions.code) from rolePermissions
 innerJoin permissions on permissions.id = rolePermissions.permissionId
 where rolePermissions.roleId in roleIds`, guarded by
`roleIds.length > 0` as in the source. -/
def allUserPermissionCodes (db : Database) (roleIds : List Nat) :
    List String :=
  if roleIds.length > 0 then
    (db.rolePermissions.product db.permissions).filterMap fun x =>
      if x.2.id = x.1.permissionId ∧ x.1.roleId ∈ roleIds then
        some x.2.code
      else none
  else []

/-- `Array.from(new Set(xs))`: JS `Set` insertion — keep the first
occurrence of each element, preserving order. -/
def jsSetDedup (xs : List String) : List String :=
  xs.foldl (fun acc x => if x ∈ acc then acc else acc ++ [x]) []

/-- The aggregation `protect` performs after loading the default role: the
de-duplicated permission codes across every role the user holds. -/
def userPermissionsAgg (db : Database) (uid : String) : List String :=
  jsSetDedup (allUserPermissionCodes db (allUserRoleIds db uid))

/-- The permission codes one role grants, read off the same
`rolePermissions ⋈ permissions` join: the per-role view the aggregated set
is a union of. -/
def rolePermissionCodes (db : Database) (rid : Nat) : List String :=
  (db.rolePermissions.product db.permissions).filterMap fun x =>
    if x.2.id = x.1.permissionId ∧ x.1.roleId = rid then some x.2.code
    else none

/-- Rewrite the `isDefault` flag of every `user_roles` row by an arbitrary
rule, leaving user and role ids alone — used to state that the permission
aggregation is independent of which roles are marked default. -/
def flipDefaults (f : UserRoleRow → Bool) (db : Database) : Database :=
  { db with userRoles := db.userRoles.map fun ur =>
      { ur with isDefault := f ur } }

/-- Outcome of the `protect` middleware: either an `AppError` is thrown, or
`req.user_details` is populated and `next()` is called. -/
inductive ProtectResult where
  | err (e : AppError)
  | ok (details : UserDetailsType)
deriving DecidableEq, Repr

/-- The `protect` middleware (`middleware/protect.ts`): extract the token,
verify it with `safeJwtVerify`, load the user joined to their default role
(fail closed if absent), aggregate the de-duplicated permission codes of all
the user's roles, and attach the result. -/
def protect (env : Env) (db : Database) (req : ProtectRequest) (now : Nat) :
    ProtectResult :=
  match extractedToken req with
  | none => .err ⟨"Authentication token missing", 401⟩
  | some token =>
    match safeJwtVerify env token now with
    | .error _ => .err ⟨"Authentication token missing", 401⟩
    | .ok decoded =>
      match protectUserQuery db decoded.userId with
      | none => .err ⟨"Invalid session, please login again", 401⟩
      | some user =>
        .ok ⟨user.id, user.name, user.email, user.roleId, user.roleName,
          userPermissionsAgg db decoded.userId⟩

/-! ## Auth web controller (`AuthWebController`) -/

/-- A `res.cookie(name, value, options)` command as issued by the login and
refresh endpoints.  `domain` is `env.COOKIE_DOMAIN` outside the local
environment and absent locally; `sameSiteNone` records whether
`sameSite: 'none'` was set. -/
structure SetCookieCmd where
  name : String
  value : SignedToken
  httpOnly : Bool
  domain : Option String
  secure : Bool
  sameSiteNone : Bool
  maxAge : Nat
deriving DecidableEq, Repr

/-- The observable success response of the login and refresh endpoints: the
two cookies set and the success message. -/
structure AuthResponse where
  accessCookie : SetCookieCmd
  refreshCookie : SetCookieCmd
  message : String
deriving DecidableEq, Repr

/-- `env.NODE_ENV !== 'local' ? env.COOKIE_DOMAIN : undefined`. -/
def cookieDomain (env : Env) : Option String :=
  if env.NODE_ENV ≠ "local" then some env.COOKIE_DOMAIN else none

/-- `select().from(users).where(eq(users.email, email))`, first row. -/
def findUserByEmail (db : Database) (email : String) : Option UserRow :=
  (db.users.filter fun u => u.email = email).head?

/-- `select().from(users).where(eq(users.id, uid))`, first row. -/
def findUserById (db : Database) (uid : String) : Option UserRow :=
  (db.users.filter fun u => u.id = uid).head?

/-- `select(userRoles.roleId) from userRoles where userId = uid and
isDefault = true limit 1`: the default-role lookup shared by the login and
refresh endpoints. -/
def defaultUserRoleId (db : Database) (uid : String) : Option Nat :=
  ((db.userRoles.filter fun ur =>
    ur.userId = uid ∧ ur.isDefault = true).map (·.roleId)).head?

/-- The local-credential branch of `loginUser`: look up by email, generic
`Incorrect Email/Password` when the user is missing, the hash is absent or
the comparison fails; only then the distinct inactive-account error.
`compareHash` abstracts `Hash.compareHash` (bcrypt comparison). -/
def verifyLocalCredentials (db : Database)
    (compareHash : String → String → Bool) (email password : String) :
    Except AppError UserRow :=
  match findUserByEmail db email with
  | none => .error ⟨"Incorrect Email/Password", 400⟩
  | some userRecord =>
    match userRecord.passwordHash with
    | none => .error ⟨"Incorrect Email/Password", 400⟩
    | some hash =>
      if compareHash password hash then
        if userRecord.isActive then .ok userRecord
        else .error ⟨"Your account is inactive", 400⟩
      else .error ⟨"Incorrect Email/Password", 400⟩

/-- The tail of `loginUser` shared by both branches: default-role lookup
(HTTP 500 when absent), `issueTokens`, and the two `res.cookie` calls —
access cookie `httpOnly: false`, `maxAge: 30 * 60 * 1000`; refresh cookie
`httpOnly: true`, `maxAge: 7 * 24 * 60 * 60 * 1000`. -/
def loginRespond (env : Env) (db : Database) (user : UserRow) (now : Nat) :
    Except AppError AuthResponse :=
  match defaultUserRoleId db user.id with
  | none => .error ⟨"User has no default role assigned", 500⟩
  | some roleId =>
    let tokens := issueTokens env user roleId now
    .ok ⟨⟨"accessToken", tokens.1, false, cookieDomain env,
          env.NODE_ENV ≠ "local", env.NODE_ENV ≠ "local", 30 * 60 * 1000⟩,
         ⟨"refreshToken", tokens.2, true, cookieDomain env,
          env.NODE_ENV ≠ "local", env.NODE_ENV ≠ "local",
          7 * 24 * 60 * 60 * 1000⟩,
         "Login Successful"⟩

/-- `loginUser` on the local email/password branch. -/
def loginUserLocal (env : Env) (db : Database)
    (compareHash : String → String → Bool) (email password : String)
    (now : Nat) : Except AppError AuthResponse :=
  match verifyLocalCredentials db compareHash email password with
  | .error e => .error e
  | .ok user => loginRespond env db user now

/-- Outcome of an endpoint whose body may also let a non-`AppError`
exception escape (`jwt.verify` throwing, a JS `TypeError`, a rejected
database call): `thrown` is that uncaught-exception case. -/
inductive EndpointResult (ρ : Type) where
  | ok (r : ρ)
  | appError (e : AppError)
  | thrown
deriving DecidableEq, Repr

/-- The `refreshToken` endpoint: read the refresh token (cookie or body),
401 when missing, `jwt.verify` against `JWT_REFRESH_SECRET` (uncaught throw
on failure), re-derive the user's current default role from storage, sign a
fresh access token with `expiresIn: '15m'` and refresh token with
`expiresIn: '7d'`, and set both cookies — the access cookie again with
`maxAge: 30 * 60 * 1000`. -/
def refreshTokenEndpoint (env : Env) (db : Database)
    (refreshTok : Option SignedToken) (now : Nat) :
    EndpointResult AuthResponse :=
  match refreshTok with
  | none => .appError ⟨"Refresh token missing", 401⟩
  | some t =>
    match jwtVerify t env.JWT_REFRESH_SECRET now with
    | .error _ => .thrown
    | .ok decoded =>
      match findUserById db decoded.userId with
      | none => .appError ⟨"Invalid refresh token", 401⟩
      | some userInfo =>
        match defaultUserRoleId db userInfo.id with
        | none => .appError ⟨"User has no default role assigned", 500⟩
        | some roleId =>
          let accessToken := jwtSign
            (.access userInfo.id userInfo.name userInfo.email roleId)
            env.JWT_SECRET (15 * 60) now
          let newRefreshToken := jwtSign (.refresh userInfo.id)
            env.JWT_REFRESH_SECRET (7 * 24 * 60 * 60) now
          .ok ⟨⟨"accessToken", accessToken, false, cookieDomain env,
                env.NODE_ENV ≠ "local", env.NODE_ENV ≠ "local",
                30 * 60 * 1000⟩,
               ⟨"refreshToken", newRefreshToken, true, cookieDomain env,
                env.NODE_ENV ≠ "local", env.NODE_ENV ≠ "local",
                7 * 24 * 60 * 60 * 1000⟩,
               "Tokens refreshed successfully"⟩

/-! ## Federated (Azure) login (`handleAzureLogin`) -/

/-- The fields of the Microsoft Graph `/me` profile read by
`handleAzureLogin`; per its declared type, `mail` is `string | null`. -/
structure AzureUser where
  displayName : String
  mail : Option String
  userPrincipalName : String
  id : String
deriving DecidableEq, Repr

/-- `azureUser.mail.toLocaleLowerCase() ||
azureUser.userPrincipalName.toLocaleLowerCase()`: when `mail` is `null` the
member access throws a `TypeError` (embedded as `Except.error ()`); when it
is a string, JS `||` falls back to the principal name only if the
lower-cased mail is the empty string (falsy). -/
def derivedEmail (u : AzureUser) : Except Unit String :=
  match u.mail with
  | none => .error ()
  | some m =>
    let lowered := jsToLower m
    .ok (if lowered = "" then jsToLower u.userPrincipalName else lowered)

/-- The two sequential inserts performed by `handleAzureLogin` for a new
user.  The source awaits them independently, with no surrounding
`db.transaction`. -/
inductive DbStep where
  | insertUser
  | insertUserRole
deriving DecidableEq, Repr

/-- `handleAzureLogin(bearerToken)`, entered with the already-fetched Graph
profile.  `newUserId` is the uuid the database generates for an inserted
user; `failAt` injects a database failure (rejected promise) at the given
insert.  The returned `Database` is the state actually committed: each
insert that ran before a failure stays committed, because the source wraps
the two inserts in no transaction. -/
def handleAzureLogin (db : Database) (azureUser : AzureUser)
    (newUserId : String) (failAt : DbStep → Bool) :
    Database × EndpointResult UserRow :=
  match derivedEmail azureUser with
  | .error _ => (db, .thrown)
  | .ok email =>
    match findUserByEmail db email with
    | some existingUser => (db, .ok existingUser)
    | none =>
      match (db.roles.filter fun r => r.isActive = true).head? with
      | none => (db, .appError ⟨"No active roles found in the system", 500⟩)
      | some defaultRole =>
        if failAt .insertUser then (db, .thrown)
        else
          let newUser : UserRow :=
            ⟨newUserId, azureUser.displayName, email, true, none⟩
          let db1 := { db with users := db.users ++ [newUser] }
          if failAt .insertUserRole then (db1, .thrown)
          else
            ({ db1 with userRoles :=
                db1.userRoles ++ [⟨newUser.id, defaultRole.id, true⟩] },
             .ok newUser)

/-! ## Permission cache (`RoleBaseAccess`) -/

/-- A row of the cache-refresh query
(`roles ⋈ rolePermissions ⋈ permissions`). -/
structure RoleModuleRow where
  roleId : Nat
  roleName : String
  permission : String
deriving DecidableEq, Repr

/-- The in-memory snapshot `Map<number, Set<string>>`, embedded as an
association list of (role id, insertion-ordered permission set). -/
def RoleModuleMap : Type := List (Nat × List String)

/-- The zod schema `RoleModuleAccessSchema` row check:
`roleName` and `permission` non-empty (`roleId` is a `Nat`, hence always
`nonnegative`). -/
def rowValid (r : RoleModuleRow) : Bool :=
  r.roleName ≠ "" ∧ r.permission ≠ ""

/-- `moduleMap.get(roleId).add(permission)` with create-on-missing. -/
def mapInsert : RoleModuleMap → Nat → String → RoleModuleMap
  | [], rid, code => [(rid, [code])]
  | (k, s) :: rest, rid, code =>
    if k = rid then (k, if code ∈ s then s else s ++ [code]) :: rest
    else (k, s) :: mapInsert rest rid code

/-- The map-building loop of `getRoleModuleData`. -/
def buildModuleMap (rows : List RoleModuleRow) : RoleModuleMap :=
  rows.foldl (fun m r => mapInsert m r.roleId r.permission) []

/-- One run of `RoleBaseAccess.getRoleModuleData`, with the database read
abstracted as its outcome `fetch`.  Every failure — the rejected query and
the zod-validation throw alike — is caught, logged, and leaves
`this.roleModule` unchanged; a successful, valid read swaps in the freshly
built map. -/
def getRoleModuleData (st : RoleModuleMap)
    (fetch : Except Unit (List RoleModuleRow)) : RoleModuleMap :=
  match fetch with
  | .error _ => st
  | .ok results =>
    if results.all rowValid then buildModuleMap results else st

/-- The initial value of `RoleBaseAccess.roleModule`: `new Map()`. -/
def initialRoleModule : RoleModuleMap := []

/-- `RoleBaseAccess.checkAccess(roleId, keyword)`:
`this.roleModule.get(roleId)?.has(keyword) ?? false`. -/
def checkAccess (st : RoleModuleMap) (roleId : Nat) (keyword : String) :
    Bool :=
  match st.find? (fun e => e.1 = roleId) with
  | none => false
  | some e => keyword ∈ e.2

/-! ## Concrete fixtures -/

/-- A concrete environment: distinct signing secrets, non-local. -/
def cEnv : Env := ⟨"access-secret", "refresh-secret", "production", "example.com"⟩

/-- An active local user with a stored password hash. -/
def uAlice : UserRow := ⟨"u-1", "Alice", "alice@example.com", true, some "bcrypt-hash-1"⟩

/-- Database for the aggregation scenario of the spec: role 1 (`ADMIN`,
default for Alice) granting `{p1, p2}` and role 2 (`USER`, non-default)
granting `{p2, p3}`. -/
def cDb : Database :=
  ⟨[uAlice],
   [⟨1, "ADMIN", true⟩, ⟨2, "USER", true⟩],
   [⟨11, "p1"⟩, ⟨12, "p2"⟩, ⟨13, "p3"⟩],
   [⟨"u-1", 1, true⟩, ⟨"u-1", 2, false⟩],
   [⟨1, 11⟩, ⟨1, 12⟩, ⟨2, 12⟩, ⟨2, 13⟩]⟩

/-- A fresh access token for Alice signed with the access secret at t = 0. -/
def cAliceToken : SignedToken :=
  jwtSign (.access "u-1" "Alice" "alice@example.com" 1) "access-secret" (30 * 60) 0

/-- A request carrying Alice's access token in the cookie. -/
def cReq : ProtectRequest := ⟨some cAliceToken, none⟩

/-- A user whose `user_roles` rows violate the one-default invariant in the
direction the schema cannot rule out: two rows with `isDefault = true`. -/
def uBob : UserRow := ⟨"u-2", "Bob", "bob@example.com", true, some "bcrypt-hash-2"⟩

/-- Database in which Bob holds roles 1 and 2, both flagged default. -/
def cDb2 : Database :=
  ⟨[uBob],
   [⟨1, "ADMIN", true⟩, ⟨2, "USER", true⟩],
   [⟨11, "p1"⟩],
   [⟨"u-2", 1, true⟩, ⟨"u-2", 2, true⟩],
   [⟨1, 11⟩]⟩

/-- A verified access token for Bob. -/
def cBobToken : SignedToken :=
  jwtSign (.access "u-2" "Bob" "bob@example.com" 1) "access-secret" (30 * 60) 0

/-- A request carrying Bob's access token. -/
def cReq2 : ProtectRequest := ⟨some cBobToken, none⟩

/-- A user holding one role that is not flagged default (zero defaults). -/
def uCarol : UserRow := ⟨"u-3", "Carol", "carol@example.com", true, none⟩

/-- Database in which Carol has a role row but no default role. -/
def cDb0 : Database :=
  ⟨[uCarol],
   [⟨1, "ADMIN", true⟩],
   [],
   [⟨"u-3", 1, false⟩],
   []⟩

/-- A verified access token for Carol. -/
def cCarolToken : SignedToken :=
  jwtSign (.access "u-3" "Carol" "carol@example.com" 1) "access-secret" (30 * 60) 0

/-- A request carrying Carol's access token. -/
def cReq3 : ProtectRequest := ⟨some cCarolToken, none⟩

/-- An empty database with one active role, as seen by a first federated
login. -/
def cDbAz : Database := ⟨[], [⟨1, "ADMIN", true⟩], [], [], []⟩

/-- A Graph profile with a non-null `mail` field. -/
def cAzureUser : AzureUser :=
  ⟨"New User", some "New.User@Corp.com", "new.user@corp.example", "az-1"⟩

/-- The federated auto-creation run in which the database rejects the
`user_roles` insert right after the `users` insert committed. -/
def cAzureRun : Database × EndpointResult UserRow :=
  handleAzureLogin cDbAz cAzureUser "uuid-new"
    (fun s => decide (s = DbStep.insertUserRole))

/-- A fresh refresh token for Alice signed with the refresh secret. -/
def cRefreshTok : SignedToken :=
  jwtSign (.refresh "u-1") "refresh-secret" (7 * 24 * 60 * 60) 0

/-- The `maxAge` of the `accessToken` cookie of a successful endpoint
response. -/
def accessCookieMaxAge : EndpointResult AuthResponse → Option Nat
  | .ok r => some r.accessCookie.maxAge
  | _ => none

/-- The password comparison oracle of the concrete login fixture. -/
def cCmp : String → String → Bool :=
  fun p h => (p == "pw") && (h == "bcrypt-hash-1")

/-- The concrete successful login response for Alice. -/
def cLoginResp : AuthResponse :=
  ⟨⟨"accessToken",
    jwtSign (.access "u-1" "Alice" "alice@example.com" 1) "access-secret"
      (30 * 60) 0,
    false, some "example.com", true, true, 1800000⟩,
   ⟨"refreshToken",
    jwtSign (.refresh "u-1") "refresh-secret" (7 * 24 * 60 * 60) 0,
    true, some "example.com", true, true, 604800000⟩,
   "Login Successful"⟩

/-- The concrete successful refresh response for Alice. -/
def cRefreshResp : AuthResponse :=
  ⟨⟨"accessToken",
    jwtSign (.access "u-1" "Alice" "alice@example.com" 1) "access-secret"
      (15 * 60) 0,
    false, some "example.com", true, true, 1800000⟩,
   ⟨"refreshToken",
    jwtSign (.refresh "u-1") "refresh-secret" (7 * 24 * 60 * 60) 0,
    true, some "example.com", true, true, 604800000⟩,
   "Tokens refreshed successfully"⟩

/-- The details `protect` attaches for Alice in the fixture database. -/
def cAliceDetails : UserDetailsType :=
  ⟨"u-1", "Alice", "alice@example.com", 1, "ADMIN", ["p1", "p2", "p3"]⟩

/-- A request carrying no token at all. -/
def cReqEmpty : ProtectRequest := ⟨none, none⟩

/-- An inactive user with a stored password hash. -/
def uDave : UserRow := ⟨"u-4", "Dave", "dave@example.com", false, some "bcrypt-hash-4"⟩

/-- Database holding only the inactive user Dave. -/
def cDbInactive : Database :=
  ⟨[uDave], [⟨1, "ADMIN", true⟩], [], [⟨"u-4", 1, true⟩], []⟩

/-- The password comparison oracle matching Dave's stored hash only on
password `pw4`. -/
def cCmpDave : String → String → Bool :=
  fun p h => (p == "pw4") && (h == "bcrypt-hash-4")

/-! ## Theorems -/

/-- JS `Set` de-duplication preserves exactly the members of its input. -/
theorem mem_jsSetDedup (xs : List String) (x : String) :
    x ∈ jsSetDedup xs ↔ x ∈ xs := by
  have key : ∀ (ys acc : List String),
      x ∈ ys.foldl (fun acc y => if y ∈ acc then acc else acc ++ [y]) acc ↔
        x ∈ acc ∨ x ∈ ys := by
    intro ys
    induction ys with
    | nil => intro acc; simp
    | cons y ys ih =>
      intro acc
      simp only [List.foldl_cons]
      rw [ih]
      by_cases h : y ∈ acc
      · simp only [if_pos h, List.mem_cons]
        constructor
        · rintro (hx | hx)
          · exact .inl hx
          · exact .inr (.inr hx)
        · rintro (hx | hx | hx)
          · exact .inl hx
          · exact .inl (hx ▸ h)
          · exact .inr hx
      · simp only [if_neg h, List.mem_append, List.mem_singleton,
          List.mem_cons]
        tauto
  simpa using key xs []

/-- Membership in the role-id list of a user's `user_roles` rows. -/
theorem mem_allUserRoleIds (db : Database) (uid : String) (rid : Nat) :
    rid ∈ allUserRoleIds db uid ↔
      ∃ ur ∈ db.userRoles, ur.userId = uid ∧ ur.roleId = rid := by
  simp only [allUserRoleIds, List.mem_map, List.mem_filter,
    decide_eq_true_eq]
  tauto

/-- Membership in the joined permission-code query of `protect`. -/
theorem mem_allUserPermissionCodes (db : Database) (roleIds : List Nat)
    (code : String) :
    code ∈ allUserPermissionCodes db roleIds ↔
      ∃ rp ∈ db.rolePermissions, rp.roleId ∈ roleIds ∧
        ∃ p ∈ db.permissions, p.id = rp.permissionId ∧ p.code = code := by
  unfold allUserPermissionCodes
  by_cases h : roleIds.length > 0
  · rw [if_pos h]
    simp only [List.mem_filterMap]
    constructor
    · rintro ⟨⟨rp, p⟩, hmem, hx⟩
      rw [List.pair_mem_product] at hmem
      split at hx
      · rename_i hcond
        exact ⟨rp, hmem.1, hcond.2, p, hmem.2, hcond.1, Option.some.inj hx⟩
      · cases hx
    · rintro ⟨rp, hrp, hrid, p, hp, hid, hcode⟩
      refine ⟨(rp, p), List.pair_mem_product.mpr ⟨hrp, hp⟩, ?_⟩
      rw [if_pos ⟨hid, hrid⟩, hcode]
  · rw [if_neg h]
    have hnil : roleIds = [] := by
      cases roleIds with
      | nil => rfl
      | cons a l => simp at h
    subst hnil
    simp

/-- Membership in the per-role permission-code view. -/
theorem mem_rolePermissionCodes (db : Database) (rid : Nat) (code : String) :
    code ∈ rolePermissionCodes db rid ↔
      ∃ rp ∈ db.rolePermissions, rp.roleId = rid ∧
        ∃ p ∈ db.permissions, p.id = rp.permissionId ∧ p.code = code := by
  unfold rolePermissionCodes
  simp only [List.mem_filterMap]
  constructor
  · rintro ⟨⟨rp, p⟩, hmem, hx⟩
    rw [List.pair_mem_product] at hmem
    split at hx
    · rename_i hcond
      exact ⟨rp, hmem.1, hcond.2, p, hmem.2, hcond.1, Option.some.inj hx⟩
    · cases hx
  · rintro ⟨rp, hrp, hrid, p, hp, hid, hcode⟩
    refine ⟨(rp, p), List.pair_mem_product.mpr ⟨hrp, hp⟩, ?_⟩
    rw [if_pos ⟨hid, hrid⟩, hcode]

/-- The aggregated set of `protect` is the union, over the roles the user
holds, of the per-role permission views. -/
theorem mem_userPermissionsAgg (db : Database) (uid : String)
    (code : String) :
    code ∈ userPermissionsAgg db uid ↔
      ∃ rid, (∃ ur ∈ db.userRoles, ur.userId = uid ∧ ur.roleId = rid) ∧
        code ∈ rolePermissionCodes db rid := by
  unfold userPermissionsAgg
  rw [mem_jsSetDedup, mem_allUserPermissionCodes]
  constructor
  · rintro ⟨rp, hrp, hrid, p, hp, hid, hcode⟩
    rw [mem_allUserRoleIds] at hrid
    exact ⟨rp.roleId, hrid,
      (mem_rolePermissionCodes db rp.roleId code).mpr
        ⟨rp, hrp, rfl, p, hp, hid, hcode⟩⟩
  · rintro ⟨rid, hur, hcode⟩
    rw [mem_rolePermissionCodes] at hcode
    obtain ⟨rp, hrp, hrideq, p, hp, hid, hc⟩ := hcode
    exact ⟨rp, hrp, (mem_allUserRoleIds db uid rp.roleId).mpr
      (by rw [hrideq]; exact hur), p, hp, hid, hc⟩

/-- Which roles a user holds is untouched by rewriting `isDefault` flags. -/
theorem allUserRoleIds_flipDefaults (f : UserRoleRow → Bool) (db : Database)
    (uid : String) :
    allUserRoleIds (flipDefaults f db) uid = allUserRoleIds db uid := by
  unfold allUserRoleIds flipDefaults
  have key : ∀ (l : List UserRoleRow),
      ((l.map fun ur => { ur with isDefault := f ur }).filter fun ur =>
        ur.userId = uid).map (·.roleId) =
      (l.filter fun ur => ur.userId = uid).map (·.roleId) := by
    intro l
    induction l with
    | nil => rfl
    | cons a l ih =>
      simp only [List.map_cons, List.filter_cons]
      by_cases h : a.userId = uid
      · simp [h, ih]
      · simp [h, ih]
  exact key db.userRoles

/-- The permission aggregation is independent of which roles carry the
`isDefault` flag. -/
theorem userPermissionsAgg_flipDefaults (f : UserRoleRow → Bool)
    (db : Database) (uid : String) :
    userPermissionsAgg (flipDefaults f db) uid =
      userPermissionsAgg db uid := by
  unfold userPermissionsAgg
  rw [allUserRoleIds_flipDefaults]
  rfl

/-- Whatever `head?` returns was a member of the list. -/
theorem mem_of_head?_eq_some {α : Type} {l : List α} {a : α}
    (h : l.head? = some a) : a ∈ l := by
  cases l with
  | nil => cases h
  | cons b t =>
    rw [List.head?_cons, Option.some.injEq] at h
    exact h ▸ List.mem_cons_self b t

/-- The row `protect`'s default-role query returns belongs to the queried
user: its `id` column is the token's `userId`. -/
theorem protectUserQuery_id (db : Database) (uid : String)
    (base : UserDetailsBase) (h : protectUserQuery db uid = some base) :
    base.id = uid := by
  unfold protectUserQuery at h
  have hmem := mem_of_head?_eq_some h
  rw [List.mem_filterMap] at hmem
  obtain ⟨x, _, hx⟩ := hmem
  split at hx
  · rename_i hcond
    cases hx
    exact hcond.2.2.1
  · cases hx

/-- C8: Permission-cache fail-soft and cold start — a failed refresh (the
caught rejected read) leaves the snapshot unchanged, so every
`checkAccess(roleId, code)` answers as before and no exception escapes
(`getRoleModuleData` is total); before any successful refresh the snapshot
is the empty map and `checkAccess` returns false for every pair. -/
theorem cache_fail_soft_and_cold_start (st : RoleModuleMap) (roleId : Nat)
    (code : String) :
    getRoleModuleData st (.error ()) = st ∧
    checkAccess (getRoleModuleData st (.error ())) roleId code =
      checkAccess st roleId code ∧
    checkAccess initialRoleModule roleId code = false :=
  ⟨rfl, rfl, rfl⟩

/-- C6: Round-trip — verifying the access token of
`issueTokens(user, roleId)` at its issue time succeeds with claims whose
`userId` is `user.id`, and verifying the same token at or after its stated
expiry (30 minutes after issuance) fails. -/
theorem token_roundtrip (env : Env) (user : UserRow) (roleId now nowLater : Nat)
    (hexp : now + 30 * 60 ≤ nowLater) :
    safeJwtVerify env (issueTokens env user roleId now).1 now =
      .ok (.access user.id user.name user.email roleId) ∧
    (JwtClaims.access user.id user.name user.email roleId).userId = user.id ∧
    safeJwtVerify env (issueTokens env user roleId now).1 nowLater =
      .error () := by
  refine ⟨?_, rfl, ?_⟩
  · simp [safeJwtVerify, issueTokens, jwtSign, jwtVerify]
  · have hnot : ¬ nowLater < now + 30 * 60 := by omega
    simp [safeJwtVerify, issueTokens, jwtSign, jwtVerify, hnot]

/-- Witness for C6 at Alice, role 1, issued at t = 0, re-checked at
t = 1800 s. -/
theorem token_roundtrip_witness :
    safeJwtVerify cEnv (issueTokens cEnv uAlice 1 0).1 0 =
      .ok (.access "u-1" "Alice" "alice@example.com" 1) ∧
    (JwtClaims.access "u-1" "Alice" "alice@example.com" 1).userId = "u-1" ∧
    safeJwtVerify cEnv (issueTokens cEnv uAlice 1 0).1 1800 = .error () :=
  token_roundtrip cEnv uAlice 1 0 1800 (by decide)

/-- C7: given distinct access and refresh secrets, a token signed with the
access secret fails refresh-token verification — both at the raw
`jwt.verify(·, JWT_REFRESH_SECRET)` level and through the refresh endpoint,
which throws. -/
theorem access_refresh_secrets_not_interchangeable (env : Env)
    (db : Database) (user : UserRow) (roleId now now2 : Nat)
    (hsec : env.JWT_SECRET ≠ env.JWT_REFRESH_SECRET) :
    jwtVerify (issueTokens env user roleId now).1 env.JWT_REFRESH_SECRET
      now2 = .error () ∧
    refreshTokenEndpoint env db (some (issueTokens env user roleId now).1)
      now2 = .thrown := by
  have h1 : jwtVerify (issueTokens env user roleId now).1
      env.JWT_REFRESH_SECRET now2 = .error () := by
    simp [issueTokens, jwtSign, jwtVerify, hsec]
  exact ⟨h1, by simp [refreshTokenEndpoint, h1]⟩

/-- Witness for C7 with the concrete distinct-secret environment. -/
theorem access_refresh_secrets_not_interchangeable_witness :
    jwtVerify (issueTokens cEnv uAlice 1 0).1 cEnv.JWT_REFRESH_SECRET 0 =
      .error () ∧
    refreshTokenEndpoint cEnv cDb (some (issueTokens cEnv uAlice 1 0).1) 0 =
      .thrown :=
  access_refresh_secrets_not_interchangeable cEnv cDb uAlice 1 0 0
    (by decide)

/-- C3: the federated auto-creation is not atomic.  On the run in which the
database rejects the `user_roles` insert right after the `users` insert, the
call fails, yet the committed state holds the new `User` row with no
`UserRole` row — an orphan user without a role, because the two inserts are
awaited independently with no surrounding transaction. -/
theorem azure_creation_orphan_on_role_insert_failure :
    cAzureRun.2 = .thrown ∧
    cAzureRun.1.users =
      [⟨"uuid-new", "New User", "new.user@corp.com", true, none⟩] ∧
    cAzureRun.1.userRoles = [] :=
  ⟨rfl, rfl, rfl⟩

/-- Counterexample to C4: a successful refresh response sets the
`accessToken` cookie with `maxAge` 1800000 ms, not the claimed 900000 ms. -/
theorem refresh_cookie_max_age_counterexample :
    accessCookieMaxAge (refreshTokenEndpoint cEnv cDb (some cRefreshTok) 0) =
      some 1800000 ∧ (1800000 : Nat) ≠ 900000 :=
  ⟨rfl, by decide⟩

/-- C4 (amended): every successful login response sets the `accessToken`
cookie with max-age 1800000 ms and an access JWT expiring in 30 minutes;
every successful refresh response also sets the cookie with max-age
1800000 ms, while its access JWT expires in 15 minutes. -/
theorem cookie_max_age_amended (env : Env) (db : Database)
    (compareHash : String → String → Bool) (email password : String)
    (now : Nat) (tok : Option SignedToken) (r r2 : AuthResponse)
    (hlogin : loginUserLocal env db compareHash email password now = .ok r)
    (hrefresh : refreshTokenEndpoint env db tok now = .ok r2) :
    r.accessCookie.maxAge = 1800000 ∧
    r.accessCookie.value.expSec = 30 * 60 ∧
    r2.accessCookie.maxAge = 1800000 ∧
    r2.accessCookie.value.expSec = 15 * 60 := by
  unfold loginUserLocal at hlogin
  split at hlogin
  · exact absurd hlogin (by simp)
  · unfold loginRespond at hlogin
    split at hlogin
    · exact absurd hlogin (by simp)
    · unfold refreshTokenEndpoint at hrefresh
      split at hrefresh
      · exact absurd hrefresh (by simp)
      · split at hrefresh
        · exact absurd hrefresh (by simp)
        · split at hrefresh
          · exact absurd hrefresh (by simp)
          · split at hrefresh
            · exact absurd hrefresh (by simp)
            · cases hlogin
              cases hrefresh
              exact ⟨rfl, rfl, rfl, rfl⟩

/-- Witness for the amended C4 on Alice's concrete login and refresh. -/
theorem cookie_max_age_amended_witness :
    cLoginResp.accessCookie.maxAge = 1800000 ∧
    cLoginResp.accessCookie.value.expSec = 30 * 60 ∧
    cRefreshResp.accessCookie.maxAge = 1800000 ∧
    cRefreshResp.accessCookie.value.expSec = 15 * 60 :=
  cookie_max_age_amended cEnv cDb cCmp "alice@example.com" "pw" 0
    (some cRefreshTok) cLoginResp cRefreshResp rfl rfl

/-- C5: the email derivation of the federated login crashes on a profile
whose `mail` is `null` (the member access throws before any fallback can
happen), instead of falling back to the lower-cased `userPrincipalName`;
with a non-null `mail` it lower-cases it as claimed; inside
`handleAzureLogin` the `null`-mail profile makes the whole call throw. -/
theorem azure_email_null_mail_throws :
    derivedEmail ⟨"Jane Doe", none, "Jane.Doe@corp.example", "az-2"⟩ =
      .error () ∧
    derivedEmail cAzureUser = .ok "new.user@corp.com" ∧
    handleAzureLogin cDbAz
      ⟨"Jane Doe", none, "Jane.Doe@corp.example", "az-2"⟩ "uuid-j"
      (fun _ => false) = (cDbAz, .thrown) :=
  ⟨rfl, rfl, rfl⟩

/-- Counterexample to C2: Bob's `user_roles` rows hold two defaults, yet
`protect` does not fail — it silently proceeds with the first matching row
and attaches Bob's details. -/
theorem protect_multi_default_counterexample :
    (cDb2.userRoles.filter fun ur =>
      ur.userId = "u-2" ∧ ur.isDefault = true).length = 2 ∧
    protect cEnv cDb2 cReq2 0 =
      .ok ⟨"u-2", "Bob", "bob@example.com", 1, "ADMIN", ["p1"]⟩ :=
  ⟨rfl, rfl⟩

/-- C1: whenever `protect` authenticates a request, the permission set it
attaches contains a code exactly when some role the user holds — default or
not — grants that code (the de-duplicated union across every held role);
and the aggregation is invariant under arbitrarily rewriting the
`isDefault` flags. -/
theorem protect_attaches_union_of_role_permissions (env : Env)
    (db : Database) (req : ProtectRequest) (now : Nat) (d : UserDetailsType)
    (h : protect env db req now = .ok d) :
    (∀ code, code ∈ d.permissions ↔
      ∃ rid, (∃ ur ∈ db.userRoles, ur.userId = d.id ∧ ur.roleId = rid) ∧
        code ∈ rolePermissionCodes db rid) ∧
    (∀ f uid, userPermissionsAgg (flipDefaults f db) uid =
      userPermissionsAgg db uid) := by
  refine ⟨?_, fun f uid => userPermissionsAgg_flipDefaults f db uid⟩
  cases hE : extractedToken req with
  | none =>
    simp only [protect, hE] at h
    exact ProtectResult.noConfusion h
  | some token =>
    cases hV : safeJwtVerify env token now with
    | error e =>
      simp only [protect, hE, hV] at h
      exact ProtectResult.noConfusion h
    | ok decoded =>
      cases hQ : protectUserQuery db decoded.userId with
      | none =>
        simp only [protect, hE, hV, hQ] at h
        exact ProtectResult.noConfusion h
      | some user =>
        simp only [protect, hE, hV, hQ] at h
        cases h
        intro code
        have hid := protectUserQuery_id db decoded.userId user hQ
        simpa [hid] using mem_userPermissionsAgg db decoded.userId code

/-- Witness for C1 on the spec's example: Alice holds role A = 1 (default,
granting `{p1, p2}`) and role B = 2 (non-default, granting `{p2, p3}`), and
`protect` attaches exactly `{p1, p2, p3}`. -/
theorem protect_union_witness :
    (∀ code, code ∈ cAliceDetails.permissions ↔
      ∃ rid, (∃ ur ∈ cDb.userRoles,
        ur.userId = cAliceDetails.id ∧ ur.roleId = rid) ∧
        code ∈ rolePermissionCodes cDb rid) ∧
    (∀ f uid, userPermissionsAgg (flipDefaults f cDb) uid =
      userPermissionsAgg cDb uid) :=
  protect_attaches_union_of_role_permissions cEnv cDb cReq 0 cAliceDetails
    rfl

/-- C2 (amended): for a verified token, `protect` fails closed with the 401
invalid-session error when the user has zero default-role rows; but when
one or more default rows exist (including the integrity-violating several),
it does not fail — it proceeds with the first joined row. -/
theorem protect_default_role_amended (env : Env) (db : Database)
    (req : ProtectRequest) (now : Nat) (token : SignedToken)
    (decoded : JwtClaims)
    (hex : extractedToken req = some token)
    (hver : safeJwtVerify env token now = .ok decoded) :
    ((∀ ur ∈ db.userRoles,
        ¬(ur.userId = decoded.userId ∧ ur.isDefault = true)) →
      protect env db req now =
        .err ⟨"Invalid session, please login again", 401⟩) ∧
    (∀ base, protectUserQuery db decoded.userId = some base →
      protect env db req now =
        .ok ⟨base.id, base.name, base.email, base.roleId, base.roleName,
          userPermissionsAgg db decoded.userId⟩) := by
  constructor
  · intro hno
    have hq : protectUserQuery db decoded.userId = none := by
      unfold protectUserQuery
      rw [List.head?_eq_none_iff, List.filterMap_eq_nil_iff]
      rintro ⟨⟨u, ur⟩, r⟩ hmem
      rw [if_neg]
      rintro ⟨h1, _, h3, h4⟩
      have hur : ur ∈ db.userRoles :=
        (List.pair_mem_product.mp (List.pair_mem_product.mp hmem).1).2
      exact hno ur hur ⟨h1.trans h3, h4⟩
    simp only [protect, hex, hver, hq]
  · intro base hbase
    simp only [protect, hex, hver, hbase]

/-- Witness for the amended C2: Carol holds a role but no default row, and
`protect` fails closed with the invalid-session 401. -/
theorem protect_default_role_amended_witness :
    protect cEnv cDb0 cReq3 0 =
      .err ⟨"Invalid session, please login again", 401⟩ :=
  (protect_default_role_amended cEnv cDb0 cReq3 0 cCarolToken
    (.access "u-3" "Carol" "carol@example.com" 1) rfl rfl).1 (by decide)

/-- C9: a request with no token at all and a request whose token fails
verification receive the byte-identical 401 error
`Authentication token missing` from `protect` — the two causes are
indistinguishable to the client. -/
theorem protect_missing_and_invalid_token_same_error (env : Env)
    (db1 db2 : Database) (req1 req2 : ProtectRequest) (now1 now2 : Nat)
    (t : SignedToken)
    (h1 : extractedToken req1 = none)
    (h2 : extractedToken req2 = some t)
    (h3 : safeJwtVerify env t now2 = .error ()) :
    protect env db1 req1 now1 =
      .err ⟨"Authentication token missing", 401⟩ ∧
    protect env db2 req2 now2 =
      .err ⟨"Authentication token missing", 401⟩ :=
  ⟨by simp only [protect, h1], by simp only [protect, h2, h3]⟩

/-- Witness for C9: an empty request, and Alice's token presented at its
expiry time (1800 s), both yield the same 401 message. -/
theorem protect_same_error_witness :
    protect cEnv cDb cReqEmpty 0 =
      .err ⟨"Authentication token missing", 401⟩ ∧
    protect cEnv cDb cReq 1800 =
      .err ⟨"Authentication token missing", 401⟩ :=
  protect_missing_and_invalid_token_same_error cEnv cDb cDb cReqEmpty cReq
    0 1800 cAliceToken rfl rfl rfl

/-- C10: for a stored inactive user, the distinct
`Your account is inactive` error is returned only when the supplied
password matches the stored hash; with an absent hash or a failing
comparison the generic `Incorrect Email/Password` error is returned, so the
response never reveals inactivity without the password. -/
theorem login_inactive_only_after_password_check (db : Database)
    (compareHash : String → String → Bool) (email password : String)
    (u : UserRow)
    (hfind : findUserByEmail db email = some u)
    (hinact : u.isActive = false) :
    (∀ hash, u.passwordHash = some hash →
      compareHash password hash = true →
      verifyLocalCredentials db compareHash email password =
        .error ⟨"Your account is inactive", 400⟩) ∧
    ((u.passwordHash = none ∨
      ∃ hash, u.passwordHash = some hash ∧
        compareHash password hash = false) →
      verifyLocalCredentials db compareHash email password =
        .error ⟨"Incorrect Email/Password", 400⟩) := by
  constructor
  · intro hash hh hcmp
    simp [verifyLocalCredentials, hfind, hh, hcmp, hinact]
  · rintro (hh | ⟨hash, hh, hcmp⟩)
    · simp [verifyLocalCredentials, hfind, hh]
    · simp [verifyLocalCredentials, hfind, hh, hcmp]

/-- Witness for C10 on the inactive user Dave: right password → inactive
error; wrong password → generic credentials error. -/
theorem login_inactive_witness :
    verifyLocalCredentials cDbInactive cCmpDave "dave@example.com" "pw4" =
      .error ⟨"Your account is inactive", 400⟩ ∧
    verifyLocalCredentials cDbInactive cCmpDave "dave@example.com" "nope" =
      .error ⟨"Incorrect Email/Password", 400⟩ :=
  ⟨(login_inactive_only_after_password_check cDbInactive cCmpDave
      "dave@example.com" "pw4" uDave rfl rfl).1 "bcrypt-hash-4" rfl
      (by decide),
   (login_inactive_only_after_password_check cDbInactive cCmpDave
      "dave@example.com" "nope" uDave rfl rfl).2
      (.inr ⟨"bcrypt-hash-4", rfl, by decide⟩)⟩

end WhatsappPoc
